import Mathlib

/-!
Verification model of the Binja_Typelib_Processing plugin.

The development shallowly embeds `ast_handlers.py` and the traversal loop of
`pre_process.py`.  The two external collaborators are modelled at their
interfaces:

* libclang cursors and types become the mutual inductives `Cursor` / `CType`,
  read-only data with the accessors the plugin consumes;
* the BinaryNinja view becomes an association-list registry of named types,
  threaded through a state-plus-exception monad `M` in which Python exceptions
  are `Except.error` values and a handler's `return None` is `Option.none`.

Fuel bounds the recursion of `define_type`; every handler receives the
recursive dispatcher as an explicit callback `dt`, mirroring the Python
module-level mutual recursion.
-/

namespace Binja

/-- libclang type kinds used by the plugin (the 23 base kinds of
`ast_handlers.base_types` plus the structural kinds it dispatches on;
`OTHERKIND` stands for the many kinds the plugin never handles). -/
inductive TypeKind where
  | BOOL | CHAR16 | CHAR32 | CHAR_S | CHAR_U | DOUBLE | FLOAT | FLOAT128
  | HALF | INT | UINT | INT128 | LONG | LONGLONG | LONGDOUBLE | SCHAR | SHORT
  | ULONG | UCHAR | ULONGLONG | USHORT | VOID | WCHAR
  | POINTER | CONSTANTARRAY | INCOMPLETEARRAY | FUNCTIONPROTO | FUNCTIONNOPROTO
  | TYPEDEF | ELABORATED | RECORD | ENUM | INVALID | OTHERKIND
deriving DecidableEq

/-- libclang cursor kinds the plugin dispatches on; `OTHERKIND` stands for the
unhandled kinds and `NO_DECL_FOUND` for the cursor returned when a type has no
backing declaration. -/
inductive CursorKind where
  | TYPEDEF_DECL | PARM_DECL | VAR_DECL | FUNCTION_DECL | ENUM_DECL
  | STRUCT_DECL | UNION_DECL | FIELD_DECL | ENUM_CONSTANT_DECL
  | NO_DECL_FOUND | OTHERKIND
deriving DecidableEq

/-- BinaryNinja calling conventions selected by `function_decl`. -/
inductive CallingConvention where
  | platformDefault | cdecl | fastcall | stdcall
deriving DecidableEq

/-- BinaryNinja types as built by the plugin.  `structT` carries the builder
state of a `bn.Structure` (width, alignment, appended members in order, and
the union tag); `prim` is a type produced by parsing a base-type spelling. -/
inductive BnType where
  | prim (spelling : String)
  | ptr (pointee : BnType)
  | array (element : BnType) (count : Nat)
  | func (result : BnType) (params : List (String × BnType))
         (cc : CallingConvention) (variadic : Bool)
  | structT (width : Nat) (alignment : Nat)
            (members : List (BnType × String)) (isUnion : Bool)
  | enumT (members : List (String × Int))

/-- Python exceptions observed by the model, plus the fuel marker that is an
artifact of the bounded embedding (never raised by any modelled Python path
that terminates within the given fuel). -/
inductive PyErr where
  | parseError (notDefined : Bool) (text : String)
  | typeError
  | attributeError
  | outOfFuel
deriving DecidableEq

mutual
/-- A libclang type node: kind, spelling and the introspection results the
plugin reads (pointee, declaration backlink, array element/size, function
result/arguments/variadic flag, record size/alignment/fields, named type). -/
inductive CType : Type where
  | mk (kind : TypeKind) (spelling : String)
       (pointee : Option CType) (declaration : Option Cursor)
       (element : Option CType) (arraySize : Nat)
       (result : Option CType) (argTypes : List CType) (variadic : Bool)
       (size : Nat) (align : Nat) (fields : List Cursor)
       (namedType : Option CType)

/-- A libclang cursor: kind, spelling, its type, the underlying typedef type,
anonymity/definition flags, the semantic parent's type spelling (the only
attribute of the semantic parent the plugin reads), children, formal
arguments, the evaluated enum constant value and the lexical keyword tokens. -/
inductive Cursor : Type where
  | mk (kind : CursorKind) (spelling : String) (type : CType)
       (underlying : Option CType)
       (anonymous : Bool) (definition : Bool)
       (semanticParentTypeSpelling : String)
       (children : List Cursor) (arguments : List Cursor)
       (enumValue : Int) (tokens : List String)
end

/-- The invalid type returned by libclang accessors that have no answer. -/
def CType.invalid : CType :=
  .mk .INVALID "" none none none 0 none [] false 0 0 [] none

def CType.kind : CType → TypeKind
  | .mk k _ _ _ _ _ _ _ _ _ _ _ _ => k

def CType.spelling : CType → String
  | .mk _ s _ _ _ _ _ _ _ _ _ _ _ => s

/-- Models `clang.cindex.Type.get_pointee`. -/
def CType.get_pointee : CType → CType
  | .mk _ _ p _ _ _ _ _ _ _ _ _ _ => p.getD CType.invalid

/-- The cursor `clang.cindex.Type.get_declaration` returns when the type has
no backing declaration (`CursorKind.NO_DECL_FOUND`). -/
def Cursor.noDecl : Cursor :=
  .mk .NO_DECL_FOUND "" CType.invalid none false false "" [] [] 0 []

/-- Models `clang.cindex.Type.get_declaration`. -/
def CType.get_declaration : CType → Cursor
  | .mk _ _ _ d _ _ _ _ _ _ _ _ _ => d.getD Cursor.noDecl

/-- Models `clang.cindex.Type.get_array_element_type`. -/
def CType.get_array_element_type : CType → CType
  | .mk _ _ _ _ e _ _ _ _ _ _ _ _ => e.getD CType.invalid

/-- Models `clang.cindex.Type.get_array_size`. -/
def CType.get_array_size : CType → Nat
  | .mk _ _ _ _ _ n _ _ _ _ _ _ _ => n

/-- Models `clang.cindex.Type.get_result`. -/
def CType.get_result : CType → CType
  | .mk _ _ _ _ _ _ r _ _ _ _ _ _ => r.getD CType.invalid

/-- Models `clang.cindex.Type.argument_types`. -/
def CType.argument_types : CType → List CType
  | .mk _ _ _ _ _ _ _ a _ _ _ _ _ => a

/-- Models `clang.cindex.Type.is_function_variadic`. -/
def CType.is_function_variadic : CType → Bool
  | .mk _ _ _ _ _ _ _ _ v _ _ _ _ => v

/-- Models `clang.cindex.Type.get_size`. -/
def CType.get_size : CType → Nat
  | .mk _ _ _ _ _ _ _ _ _ sz _ _ _ => sz

/-- Models `clang.cindex.Type.get_align`. -/
def CType.get_align : CType → Nat
  | .mk _ _ _ _ _ _ _ _ _ _ al _ _ => al

/-- Models `clang.cindex.Type.get_fields`. -/
def CType.get_fields : CType → List Cursor
  | .mk _ _ _ _ _ _ _ _ _ _ _ f _ => f

/-- Models `clang.cindex.Type.get_named_type`. -/
def CType.get_named_type : CType → CType
  | .mk _ _ _ _ _ _ _ _ _ _ _ _ nt => nt.getD CType.invalid

def Cursor.kind : Cursor → CursorKind
  | .mk k _ _ _ _ _ _ _ _ _ _ => k

def Cursor.spelling : Cursor → String
  | .mk _ s _ _ _ _ _ _ _ _ _ => s

def Cursor.type : Cursor → CType
  | .mk _ _ t _ _ _ _ _ _ _ _ => t

/-- Models `clang.cindex.Cursor.underlying_typedef_type`. -/
def Cursor.underlying_typedef_type : Cursor → CType
  | .mk _ _ _ u _ _ _ _ _ _ _ => u.getD CType.invalid

/-- Models `clang.cindex.Cursor.is_anonymous`. -/
def Cursor.is_anonymous : Cursor → Bool
  | .mk _ _ _ _ a _ _ _ _ _ _ => a

/-- Models `clang.cindex.Cursor.is_definition`. -/
def Cursor.is_definition : Cursor → Bool
  | .mk _ _ _ _ _ d _ _ _ _ _ => d

/-- The type spelling of `clang.cindex.Cursor.semantic_parent`, the only
attribute of the semantic parent that `is_recursive_field` reads. -/
def Cursor.semantic_parent_type_spelling : Cursor → String
  | .mk _ _ _ _ _ _ p _ _ _ _ => p

/-- Models `clang.cindex.Cursor.get_children`. -/
def Cursor.get_children : Cursor → List Cursor
  | .mk _ _ _ _ _ _ _ c _ _ _ => c

/-- Models `clang.cindex.Cursor.get_arguments`. -/
def Cursor.get_arguments : Cursor → List Cursor
  | .mk _ _ _ _ _ _ _ _ a _ _ => a

/-- Models `clang.cindex.Cursor.enum_value`. -/
def Cursor.enum_value : Cursor → Int
  | .mk _ _ _ _ _ _ _ _ _ v _ => v

/-- The keyword tokens of `clang.cindex.Cursor.get_tokens` (only keyword
tokens are inspected, by the calling-convention scan). -/
def Cursor.get_tokens : Cursor → List String
  | .mk _ _ _ _ _ _ _ _ _ _ t => t

/-- Models `clang.cindex.Cursor.get_definition`: for the field cursors the plugin
calls it on (fields of a struct definition), the definition is the cursor
itself. -/
def Cursor.get_definition (c : Cursor) : Cursor := c

/-- The BinaryNinja view's name-to-type registry (`bv.define_user_type` /
`bv.get_type_by_name`).  Registration prepends, so a later definition of the
same name shadows the earlier one, matching the view's overwrite semantics
observationally. -/
def Reg : Type := List (String × BnType)

/-- Lookup of `bv.get_type_by_name`. -/
def regLookup : Reg → String → Option BnType
  | [], _ => none
  | (n, t) :: rest, name => if n = name then some t else regLookup rest name

/-- The state-plus-exception monad of the embedding: the registry is threaded
through and survives a raised exception, as Python mutations do. -/
def M (α : Type) : Type := Reg → Except PyErr α × Reg

def M.pure {α : Type} (a : α) : M α := fun reg => (Except.ok a, reg)

def M.bind {α β : Type} (m : M α) (f : α → M β) : M β := fun reg =>
  match m reg with
  | (Except.ok a, reg1) => f a reg1
  | (Except.error e, reg1) => (Except.error e, reg1)

instance : Monad M where
  pure := M.pure
  bind := M.bind

/-- Raising a Python exception. -/
def M.throw {α : Type} (e : PyErr) : M α := fun reg => (Except.error e, reg)

/-- A Python `try`/`except` block: the handler sees the state at raise time;
exceptions raised by the handler itself are not caught. -/
def M.tryCatch {α : Type} (m : M α) (h : PyErr → M α) : M α := fun reg =>
  match m reg with
  | (Except.ok a, reg1) => (Except.ok a, reg1)
  | (Except.error e, reg1) => h e reg1

/-- Models `bv.get_type_by_name`. -/
def get_type_by_name (name : String) : M (Option BnType) := fun reg =>
  (Except.ok (regLookup reg name), reg)

/-- Models `bv.define_user_type`. -/
def define_user_type (name : String) (t : BnType) : M Unit := fun reg =>
  (Except.ok (), (name, t) :: reg)

/-- Base-type spellings the modelled string parser recognizes (single-word C
primitive spellings; enough to drive every code path the claims exercise). -/
def base_spellings : List String :=
  ["void", "bool", "char", "short", "int", "long", "float", "double"]

/-- Whitespace tokenization in the style of Python's `str.split()`: maximal
runs of non-space characters, empty tokens dropped. -/
def splitTokensAux : List Char → List Char → List String
  | [], acc => if acc = [] then [] else [String.mk acc.reverse]
  | c :: rest, acc =>
      if c = ' ' then
        if acc = [] then splitTokensAux rest []
        else String.mk acc.reverse :: splitTokensAux rest []
      else splitTokensAux rest (c :: acc)

/-- Tokenize a spelling string. -/
def tokenize (s : String) : List String := splitTokensAux s.data []

/-- Model of the external BinaryNinja collaborator `bv.parse_type_string`:
it understands a known primitive spelling optionally followed by a declarator
name, resolves any other single identifier against the view's registered
types, and otherwise raises `SyntaxError`.  The message of every raised
`SyntaxError` contains the words `syntax error` and carries the offending
text; `notDefined` records whether it also reports an undefined identifier
(`... is not defined`), which is the case exactly when the text has
identifier-plus-optional-name shape. -/
def parse_type_string (s : String) : M (BnType × String) := fun reg =>
  match tokenize s with
  | [t] =>
      if t ∈ base_spellings then (Except.ok (BnType.prim t, ""), reg)
      else
        match regLookup reg t with
        | some ty => (Except.ok (ty, ""), reg)
        | none => (Except.error (PyErr.parseError true s), reg)
  | [t, n] =>
      if t ∈ base_spellings then (Except.ok (BnType.prim t, n), reg)
      else
        match regLookup reg t with
        | some ty => (Except.ok (ty, n), reg)
        | none => (Except.error (PyErr.parseError true s), reg)
  | _ => (Except.error (PyErr.parseError false s), reg)

/-- Model of the external `xxhash.xxh64` collaborator: a deterministic string
hash with the 64-bit range of the real function (the two properties the
plugin relies on).  The concrete mixing differs from xxhash, which lives
outside this repository. -/
def xxh64 (s : String) : Nat :=
  (s.data.foldl (fun h c => (h * 1099511628211 + c.toNat) % 2 ^ 64)
    14695981039346656037) % 2 ^ 64

/-- One lower-case hex digit. -/
def hexDigit (n : Nat) : Char := "0123456789abcdef".data.getD n '0'

/-- Fixed-width big-endian hex rendering (`k` digits). -/
def toHexFixed : Nat → Nat → List Char
  | 0, _ => []
  | k + 1, v => toHexFixed k (v / 16) ++ [hexDigit (v % 16)]

/-- Models `xxhash.xxh64_hexdigest`: the 16-hex-character digest of the 64-bit
hash. -/
def xxh64_hexdigest (s : String) : String := String.mk (toHexFixed 16 (xxh64 s))

/-- Models Python unpacking `name, type = handler(...)` of a handler result:
unpacking `None` raises `TypeError`. -/
def unpack2 (r : Option (String × BnType)) : M (String × BnType) :=
  match r with
  | some p => M.pure p
  | none => M.throw PyErr.typeError

/-- Models `ast_handlers.base_types` (ast_handlers.py:12). -/
def base_types : List TypeKind :=
  [TypeKind.BOOL, TypeKind.CHAR16, TypeKind.CHAR32, TypeKind.CHAR_S,
   TypeKind.CHAR_U, TypeKind.DOUBLE, TypeKind.FLOAT, TypeKind.FLOAT128,
   TypeKind.HALF, TypeKind.INT, TypeKind.UINT, TypeKind.INT128, TypeKind.LONG,
   TypeKind.LONGLONG, TypeKind.LONGDOUBLE, TypeKind.SCHAR, TypeKind.SHORT,
   TypeKind.ULONG, TypeKind.UCHAR, TypeKind.ULONGLONG, TypeKind.USHORT,
   TypeKind.VOID, TypeKind.WCHAR]

/-- Models `ast_handlers.compiler_directives` (ast_handlers.py:20). -/
def compiler_directives : List String :=
  ["__unaligned", "__attribute__((stdcall))"]

/-- Models `ast_handlers.INCOMPLETE_ARRAY_ARBITRARY_SIZE` (ast_handlers.py:23). -/
def INCOMPLETE_ARRAY_ARBITRARY_SIZE : Nat := 0x1000

/-- Models `ast_handlers.void_types` (ast_handlers.py:26). -/
def void_types : List String :=
  ["const void", "const volatile void", "volatile void", "__unaligned void",
   "const __unaligned void"]

/-- Models `ast_handlers.check_if_base_type` (ast_handlers.py:305). -/
def check_if_base_type (ty : CType) : Bool := ty.kind ∈ base_types

/-- Models `ast_handlers.remove_compiler_directives` (ast_handlers.py:362): drop
directive tokens and rebuild the string with a trailing space per kept
token, as the Python concatenation does. -/
def remove_compiler_directives (type_str : String) : String :=
  ((tokenize type_str).filter (fun w => w ∉ compiler_directives)).foldl
    (fun acc w => acc ++ w ++ " ") ""

/-- Python's `str.endswith`. -/
def str_endswith (s suffix : String) : Bool := suffix.data.isSuffixOf s.data

/-- Models `ast_handlers.is_recursive_field` (ast_handlers.py:617): a field is
recursive when its type is a pointer whose pointee spelling equals the
semantic parent's type spelling.  The `bv` parameter of the source is unused
there and dropped here. -/
def is_recursive_field (field : Cursor) : Bool :=
  if field.type.kind = TypeKind.POINTER then
    field.type.get_pointee.spelling = field.semantic_parent_type_spelling
  else false

/-- The token scan of `function_decl` (ast_handlers.py:488) selecting the
calling convention: the last convention keyword wins, the accumulator is the
platform default. -/
def scan_calling_convention : List String → CallingConvention → CallingConvention
  | [], acc => acc
  | tok :: rest, acc =>
      scan_calling_convention rest
        (if tok = "__cdecl" then CallingConvention.cdecl
         else if tok = "__fastcall" then CallingConvention.fastcall
         else if tok = "__stdcall" then CallingConvention.stdcall
         else acc)

/-- The `while current_pointer_type.kind == TypeKind.POINTER` walk of
`pointer_type` (ast_handlers.py:159): counts pointer levels onto the running
counter and returns the non-pointer base. -/
def nested_pointer_walk : CType → Nat → Nat × CType
  | CType.mk TypeKind.POINTER _ (some p) _ _ _ _ _ _ _ _ _ _, acc =>
      nested_pointer_walk p (acc + 1)
  | t, acc => (acc, t)

/-- The `for nesting_level in range(nested_pointer_count)` rebuild loop of
`pointer_type` (ast_handlers.py:167): wrap `n` further pointer layers. -/
def wrap_pointers : Nat → BnType → BnType
  | 0, t => t
  | k + 1, t => wrap_pointers k (BnType.ptr t)

/-- Models `bn.Type.structure_type(bn.Structure())`: the empty forward-declaration
placeholder (fresh builder: width 0, alignment 1, no members). -/
def empty_structure : BnType := BnType.structT 0 1 [] false

/-- The recursive-dispatch callback every handler receives; it stands for the
Python module-level reference to `define_type`. -/
def DT : Type := Cursor → M (Option (String × BnType))

/-- Models `ast_handlers.typedef_decl` (ast_handlers.py:316).  The locals
`var_type`/`name` that Python may leave unbound are an `Option`: the `none`
case is the `UnboundLocalError` swallowed by the final `except`, yielding
`None`.  The modelled parser's `SyntaxError` message always contains
`syntax error`, so the source's outer message guard is the match on the
`parseError` constructor. -/
def typedef_decl (node : Cursor) : M (Option (String × BnType)) := do
  let existing ← if node.spelling ≠ "" then get_type_by_name node.spelling else M.pure none
  match existing with
  | some t => pure (some (node.spelling, t))
  | none => do
    let parsed : Option (BnType × String) ←
      if node.underlying_typedef_type.spelling = "" then
        M.tryCatch
          (do
            let (var_type, name) ← parse_type_string (node.type.spelling ++ " " ++ node.spelling)
            pure (some (var_type, name)))
          (fun _ => M.pure none)
      else do
        let underlying_typedef_type_string :=
          remove_compiler_directives node.underlying_typedef_type.spelling
        M.tryCatch
          (do
            let (var_type, _name) ← parse_type_string underlying_typedef_type_string
            pure (some (var_type, node.spelling)))
          (fun e =>
            match e with
            | PyErr.parseError notDefined _text =>
                if str_endswith node.spelling "_t" then do
                  -- node.spelling[:-1] + 'T'
                  let altered_spelling := String.mk node.spelling.data.dropLast ++ "T"
                  let (var_type, name) ←
                    parse_type_string (underlying_typedef_type_string ++ " " ++ altered_spelling)
                  pure (some (var_type, name))
                else if notDefined then
                  -- ast_handlers.py:347 calls `bv.define_user_type` with a
                  -- single argument and unpacks its result: TypeError.
                  M.throw PyErr.typeError
                else M.pure none
            | other => M.throw other)
    match parsed with
    | some (var_type, name) => do
        define_user_type name var_type
        pure (some (name, var_type))
    | none => pure none

/-- Models `ast_handlers.var_decl` (ast_handlers.py:371). -/
def var_decl (node : Cursor) : M (Option (String × BnType)) := do
  let (var_type, name) ← parse_type_string (node.type.spelling ++ " " ++ node.spelling)
  define_user_type name var_type
  pure (some (name, var_type))

/-- Models `ast_handlers.enum_decl` (ast_handlers.py:511). -/
def enum_decl (node : Cursor) : M (Option (String × BnType)) := do
  let enum_members := node.get_children.map (fun m => (m.spelling, m.enum_value))
  let enum_name := if node.spelling ≠ "" then node.spelling else node.type.spelling
  define_user_type enum_name (BnType.enumT enum_members)
  pure (some (node.spelling, BnType.enumT enum_members))

/-- The parameter loop of `function_decl` over argument types
(ast_handlers.py:417). -/
def function_params_from_types (dt : DT) : List CType → M (List (String × BnType))
  | [] => M.pure []
  | param_type :: rest => do
      let p ←
        if param_type.kind = TypeKind.INCOMPLETEARRAY then do
          let (arr_var_type, var_name) ←
            if check_if_base_type param_type.get_array_element_type then do
              let (arr_var_type, var_name) ←
                parse_type_string param_type.get_array_element_type.spelling
              pure (arr_var_type, var_name)
            else if param_type.get_array_element_type.kind = TypeKind.POINTER then do
              let r ← dt param_type.get_array_element_type.get_pointee.get_declaration
              let (_pointee_name, pointee_type) ← unpack2 r
              pure (BnType.ptr pointee_type, "")
            else do
              let r ← dt param_type.get_array_element_type.get_declaration
              let (var_name, arr_var_type) ← unpack2 r
              pure (arr_var_type, var_name)
          pure (var_name, BnType.array arr_var_type INCOMPLETE_ARRAY_ARBITRARY_SIZE)
        else do
          let (var_type, var_name) ←
            parse_type_string (remove_compiler_directives param_type.spelling)
          pure (var_name, var_type)
      let ps ← function_params_from_types dt rest
      pure (p :: ps)

/-- The parameter loop of `function_decl` over a pointee prototype's argument
types (ast_handlers.py:453). -/
def function_params_from_pointee_types : List CType → M (List (String × BnType))
  | [] => M.pure []
  | param_type :: rest => do
      let param_type_string := remove_compiler_directives param_type.spelling
      let param_type_string :=
        if param_type.kind = TypeKind.INCOMPLETEARRAY then
          param_type_string.replace "[]"
            ("[" ++ toString INCOMPLETE_ARRAY_ARBITRARY_SIZE ++ "]")
        else param_type_string
      let (var_type, var_name) ← parse_type_string param_type_string
      let ps ← function_params_from_pointee_types rest
      pure ((var_name, var_type) :: ps)

/-- The parameter loop of `function_decl` over formal argument cursors
(ast_handlers.py:476). -/
def function_params_from_args (dt : DT) : List Cursor → M (List (String × BnType))
  | [] => M.pure []
  | param :: rest => do
      let r ← dt param
      let (var_name, var_type) ← unpack2 r
      let ps ← function_params_from_args dt rest
      pure ((var_name, var_type) :: ps)

/-- Models `ast_handlers.function_decl` (ast_handlers.py:385). -/
def function_decl (dt : DT) (node : Cursor) : M (Option (String × BnType)) := do
  let shape ←
    if node.kind = CursorKind.TYPEDEF_DECL then do
      let (arg_types, node_result_type, variable_arguments) :=
        if node.type.kind = TypeKind.TYPEDEF then
          if node.underlying_typedef_type.kind = TypeKind.POINTER then
            (node.underlying_typedef_type.get_pointee.argument_types,
             node.underlying_typedef_type.get_pointee.get_result,
             node.underlying_typedef_type.get_pointee.is_function_variadic)
          else
            (node.underlying_typedef_type.argument_types,
             node.underlying_typedef_type.get_result,
             node.underlying_typedef_type.is_function_variadic)
        else
          (node.type.argument_types, node.type.get_result,
           node.type.is_function_variadic)
      let func_params ← function_params_from_types dt arg_types
      pure (func_params, node_result_type, variable_arguments)
    else if node.type.kind = TypeKind.POINTER then do
      let func_params ←
        function_params_from_pointee_types node.type.get_pointee.argument_types
      pure (func_params, node.type.get_pointee.get_result,
            node.type.get_pointee.is_function_variadic)
    else
      if node.type.kind = TypeKind.FUNCTIONNOPROTO then
        M.pure (([] : List (String × BnType)), node.type.get_result, false)
      else do
        let func_params ← function_params_from_args dt node.get_arguments
        pure (func_params, node.type.get_result, node.type.is_function_variadic)
  let (func_params, node_result_type, variable_arguments) := shape
  let (func_return_val_type, _ret_name) ←
    parse_type_string (remove_compiler_directives node_result_type.spelling)
  let function_calling_convention :=
    scan_calling_convention node.get_tokens CallingConvention.platformDefault
  let function_type :=
    BnType.func func_return_val_type func_params function_calling_convention
      variable_arguments
  define_user_type node.spelling function_type
  pure (some (node.spelling, function_type))

/-- Models `ast_handlers.functionproto_type` (ast_handlers.py:200). -/
def functionproto_type (dt : DT) (node : Cursor) : M (Option (String × BnType)) :=
  if node.kind = CursorKind.TYPEDEF_DECL ∨ node.kind = CursorKind.PARM_DECL ∨
      node.is_definition = false then
    function_decl dt node
  else M.pure none

/-- Models `ast_handlers.incompletearray_type` (ast_handlers.py:277).  Builds the
fixed-capacity substitute array and returns it; note that no
`define_user_type` call occurs on any path. -/
def incompletearray_type (dt : DT) (node : Cursor) : M (String × BnType) := do
  let bn_array_element_type := node.type.get_array_element_type
  let var_type ←
    if check_if_base_type bn_array_element_type then do
      let (var_type, _var_name) ← parse_type_string bn_array_element_type.spelling
      pure var_type
    else if bn_array_element_type.kind = TypeKind.POINTER then do
      let pointee_var_type ←
        if check_if_base_type bn_array_element_type.get_pointee then do
          let pointee_type_string :=
            if bn_array_element_type.get_pointee.spelling ∈ void_types then "void"
            else bn_array_element_type.get_pointee.spelling
          let (pointee_var_type, _pointee_var_name) ←
            parse_type_string pointee_type_string
          pure pointee_var_type
        else do
          let r ← dt bn_array_element_type.get_pointee.get_declaration
          let (_pointee_var_name, pointee_var_type) ← unpack2 r
          pure pointee_var_type
      pure (BnType.ptr pointee_var_type)
    else do
      let r ← dt bn_array_element_type.get_declaration
      let (_var_name, var_type) ← unpack2 r
      pure var_type
  pure (node.spelling, BnType.array var_type INCOMPLETE_ARRAY_ARBITRARY_SIZE)

/-- The field loop of `define_anonymous_type` (ast_handlers.py:596). -/
def define_anonymous_fields (dt : DT) : List Cursor → M (List (BnType × String))
  | [] => M.pure []
  | field :: rest => do
      let bn_field_type0 ← get_type_by_name field.spelling
      let (field_name, bn_field_type) ←
        match bn_field_type0 with
        | some t => pure (field.spelling, t)
        | none => do
            let r ← dt field.get_definition
            unpack2 r
      let restEntries ← define_anonymous_fields dt rest
      pure ((bn_field_type, field_name) :: restEntries)

/-- Models `ast_handlers.define_anonymous_type` (ast_handlers.py:585): synthesizes
the name `anon_` plus the hash of the type spelling, builds the composite and
returns it; note that no `define_user_type` call occurs for the returned
name. -/
def define_anonymous_type (dt : DT) (node : Cursor) : M (String × BnType) := do
  let struct_name := "anon_" ++ xxh64_hexdigest node.type.spelling
  let members ← define_anonymous_fields dt node.type.get_fields
  let isUnion := decide (node.type.kind = TypeKind.ELABORATED ∧
    node.type.get_named_type.get_declaration.kind = CursorKind.UNION_DECL)
  pure (struct_name,
        BnType.structT node.type.get_size node.type.get_align members isUnion)

/-- The element-resolution part of `ast_handlers.constantarray_type`
(ast_handlers.py:215-271), producing the local `array`.  The Python locals
`array`/`element_type_node` and the trailing `if not array:` merge are
inlined per branch; the merged tail (dispatch on the selected declaration
node, then wrap in the outer array) is repeated verbatim in each branch that
reaches it. -/
def constantarray_build (dt : DT) (node : Cursor) : M BnType := do
  let element_type := node.type.get_array_element_type
  do
    let bn_element_type ← get_type_by_name element_type.spelling
    match bn_element_type with
    | some t => pure (BnType.array t node.type.get_array_size)
    | none =>
      if node.type.get_array_element_type.get_declaration.is_anonymous then do
        let (_anonymous_name, bn_anonymous_type) ←
          define_anonymous_type dt node.type.get_array_element_type.get_declaration
        pure (BnType.array bn_anonymous_type node.type.get_array_size)
      else if check_if_base_type element_type then do
        let (var_type, _name) ← parse_type_string element_type.spelling
        pure (BnType.array var_type node.type.get_array_size)
      else if node.type.get_array_element_type.kind = TypeKind.POINTER then
        if check_if_base_type node.type.get_array_element_type.get_pointee then do
          let (bn_element_type, _bn_element_name) ←
            parse_type_string node.type.get_array_element_type.get_pointee.spelling
          pure (BnType.array (BnType.ptr bn_element_type) node.type.get_array_size)
        else do
          let r ← dt node.type.get_array_element_type.get_pointee.get_declaration
          let (_bn_element_name, bn_element_type) ← unpack2 r
          pure (BnType.array bn_element_type node.type.get_array_size)
      else if node.type.get_array_element_type.kind = TypeKind.CONSTANTARRAY then
        if check_if_base_type
            node.type.get_array_element_type.get_array_element_type then do
          let (bn_element_type, _bn_element_name) ← parse_type_string
            node.type.get_array_element_type.get_array_element_type.spelling
          let temp_array := BnType.array bn_element_type
            node.type.get_array_element_type.get_array_size
          pure (BnType.array temp_array node.type.get_array_size)
        else do
          let r ← dt
            node.type.get_array_element_type.get_array_element_type.get_declaration
          let (_bn_element_name, bn_element_type) ← unpack2 r
          pure (BnType.array bn_element_type node.type.get_array_size)
      else do
        let r ← dt node.type.get_array_element_type.get_declaration
        let (_bn_element_name, bn_element_type) ← unpack2 r
        pure (BnType.array bn_element_type node.type.get_array_size)

/-- Models `ast_handlers.constantarray_type` (ast_handlers.py:212): resolve the
element, register the outer array under the node's spelling
(ast_handlers.py:272) and return it. -/
def constantarray_type (dt : DT) (node : Cursor) : M (Option (String × BnType)) := do
  let array ← constantarray_build dt node
  define_user_type node.spelling array
  pure (some (node.spelling, array))

/-- The pointee-resolution part of `ast_handlers.pointer_type`
(ast_handlers.py:103-193), producing the local `pointer`. -/
def pointer_build (dt : DT) (node : Cursor) (pointee_type : CType) : M BnType := do
      if check_if_base_type pointee_type then do
        let pointee_type_spelling :=
          if pointee_type.spelling ∈ void_types then "void" else pointee_type.spelling
        let (bn_pointee_type, _name) ← parse_type_string pointee_type_spelling
        pure (BnType.ptr bn_pointee_type)
      else do
        let pointee_node := pointee_type.get_declaration
        if pointee_node.kind = CursorKind.NO_DECL_FOUND then
          if pointee_type.kind = TypeKind.FUNCTIONPROTO then do
            let r ← function_decl dt node
            let (_bn_pointee_name, bn_pointee_type) ← unpack2 r
            pure (BnType.ptr bn_pointee_type)
          else if pointee_type.kind = TypeKind.FUNCTIONNOPROTO then do
            let pointee_result_type := pointee_type.get_result
            let bn_result_type ←
              if check_if_base_type pointee_result_type then do
                let pointee_result_string :=
                  if pointee_result_type.spelling ∈ void_types then "void"
                  else pointee_result_type.spelling
                let (bn_result_type, _bn_result_name) ←
                  parse_type_string pointee_result_string
                pure bn_result_type
              else do
                let result_type := pointee_type.get_result.get_declaration
                let r ← dt result_type
                let (_bn_result_name, bn_result_type) ← unpack2 r
                pure bn_result_type
            pure (BnType.ptr
              (BnType.func bn_result_type [] CallingConvention.platformDefault false))
          else if pointee_type.kind = TypeKind.POINTER then do
            let bn_pointee_type ←
              if check_if_base_type pointee_type.get_pointee then do
                let type_string :=
                  if pointee_type.get_pointee.spelling ∈ void_types then "void"
                  else pointee_type.get_pointee.spelling
                let (bn_pointee_type, _bn_pointee_name) ← parse_type_string type_string
                pure bn_pointee_type
              else if pointee_type.get_pointee.kind = TypeKind.POINTER then do
                let (nested_pointer_count, current_pointer_type) :=
                  nested_pointer_walk pointee_type.get_pointee 1
                let bn_pointee_base ←
                  if check_if_base_type current_pointer_type then do
                    let (bn_pointee_type, _bn_pointee_name) ←
                      parse_type_string current_pointer_type.spelling
                    pure bn_pointee_type
                  else
                    -- ast_handlers.py:165 passes the libclang Type where
                    -- define_type expects a Cursor; reading `.type` on it
                    -- raises AttributeError.
                    M.throw PyErr.attributeError
                let temp_bn_pointer_type :=
                  wrap_pointers nested_pointer_count (BnType.ptr bn_pointee_base)
                pure (BnType.ptr temp_bn_pointer_type)
              else if pointee_type.get_pointee.get_declaration.kind =
                  CursorKind.NO_DECL_FOUND then do
                let (bn_pointee_type, _bn_pointee_name) ←
                  parse_type_string pointee_type.spelling
                pure bn_pointee_type
              else do
                let r ← dt pointee_type.get_pointee.get_declaration
                let (_bn_pointee_name, bn_pointee_type) ← unpack2 r
                pure bn_pointee_type
            pure (BnType.ptr bn_pointee_type)
          else do
            let (bn_pointee_type, _bn_pointee_name) ←
              parse_type_string node.underlying_typedef_type.spelling
            pure (BnType.ptr bn_pointee_type)
        else do
          let bn_pointee_type0 ← get_type_by_name pointee_node.spelling
          match bn_pointee_type0 with
          | none => do
              let r ← dt pointee_node
              let (_bn_pointee_name, bn_pointee_type) ← unpack2 r
              pure (BnType.ptr bn_pointee_type)
          | some bn_pointee_type => pure (BnType.ptr bn_pointee_type)

/-- Models `ast_handlers.pointer_type` (ast_handlers.py:92): select the pointee
(typedef-underlying or direct), resolve it to a pointer, register the result
under the node's spelling (ast_handlers.py:195) and return it.  The early
`return` for other type kinds (ast_handlers.py:101) yields `None`. -/
def pointer_type (dt : DT) (node : Cursor) : M (Option (String × BnType)) :=
  if node.type.kind ≠ TypeKind.TYPEDEF ∧ node.type.kind ≠ TypeKind.POINTER then
    M.pure none
  else do
    let pointee_type :=
      if node.type.kind = TypeKind.TYPEDEF then node.underlying_typedef_type.get_pointee
      else node.type.get_pointee
    let pointer ← pointer_build dt node pointee_type
    define_user_type node.spelling pointer
    pure (some (node.spelling, pointer))

/-- The field loop of `struct_decl` (ast_handlers.py:556). -/
def struct_decl_fields (dt : DT) : List Cursor → M (List (BnType × String))
  | [] => M.pure []
  | field :: rest => do
      let entry ←
        if is_recursive_field field then do
          let forward_decl_struct_name :=
            field.type.get_pointee.get_declaration.spelling
          define_user_type forward_decl_struct_name empty_structure
          let t ← get_type_by_name forward_decl_struct_name
          match t with
          | some tt => pure (tt, forward_decl_struct_name)
          | none => M.throw PyErr.typeError  -- unreachable: name just defined
        else do
          let var_type0 ← get_type_by_name field.spelling
          let var_type ←
            match var_type0 with
            | some t => pure t
            | none => do
                let r ← dt field.get_definition
                let (_var_name, t) ← unpack2 r
                pure t
          pure (var_type, field.spelling)
      let restEntries ← struct_decl_fields dt rest
      pure (entry :: restEntries)

/-- Models `ast_handlers.struct_decl` (ast_handlers.py:530): register the empty
placeholder first, populate fields only for true definitions, then register
the final composite under the same name and return it. -/
def struct_decl (dt : DT) (node : Cursor) : M (Option (String × BnType)) := do
  let struct_name := if node.spelling ≠ "" then node.spelling else node.type.spelling
  define_user_type struct_name empty_structure
  let members ←
    if node.is_definition then struct_decl_fields dt node.type.get_fields
    else M.pure []
  let final := BnType.structT node.type.get_size node.type.get_align members
    (decide (node.kind = CursorKind.UNION_DECL))
  define_user_type struct_name final
  pure (some (struct_name, final))

/-- Models `ast_handlers.field_decl` (ast_handlers.py:632): the whole body sits in a
`try` whose `except Exception` swallows every failure into `None`. -/
def field_decl (dt : DT) (node : Cursor) : M (Option (String × BnType)) :=
  M.tryCatch
    (if is_recursive_field node = false then do
      if check_if_base_type node.type then do
        let (field_type, field_name) ←
          parse_type_string (node.type.spelling ++ " " ++ node.spelling)
        pure (some (field_name, field_type))
      else do
        let r ← dt node
        let (field_name, field_type) ← unpack2 r
        pure (some (field_name, field_type))
    else M.pure none)
    (fun _ => M.pure none)

/-- Models `ast_handlers.define_type` (ast_handlers.py:29): the central dispatcher.
Fuel bounds the recursion; each dispatch hands the handlers `define_type f`
as the recursion callback.  The final `else` is the logged
`no handler for cursorKind` fall-through returning `None`. -/
def define_type : Nat → Cursor → M (Option (String × BnType))
  | 0, _ => M.throw PyErr.outOfFuel
  | f + 1, node => do
    let current_type ←
      if node.spelling ≠ "" then get_type_by_name node.type.spelling
      else M.pure none
    match current_type with
    | some t => pure (some (node.spelling, t))
    | none =>
      if check_if_base_type node.type then do
        let (var_type, var_name) ←
          parse_type_string (node.type.spelling ++ " " ++ node.spelling)
        pure (some (var_name, var_type))
      else if node.is_anonymous then do
        let p ← define_anonymous_type (define_type f) node
        pure (some p)
      else if node.type.kind = TypeKind.ELABORATED then
        define_type f node.type.get_declaration
      else if node.type.kind = TypeKind.CONSTANTARRAY then
        constantarray_type (define_type f) node
      else if node.type.kind = TypeKind.INCOMPLETEARRAY then do
        let p ← incompletearray_type (define_type f) node
        pure (some p)
      else if node.type.kind = TypeKind.FUNCTIONPROTO then
        functionproto_type (define_type f) node
      else if node.type.kind = TypeKind.POINTER then
        pointer_type (define_type f) node
      else if node.kind = CursorKind.TYPEDEF_DECL then
        if node.type.kind = TypeKind.TYPEDEF ∧
            node.underlying_typedef_type.kind = TypeKind.FUNCTIONPROTO then
          function_decl (define_type f) node
        else if node.type.kind = TypeKind.TYPEDEF ∧
            node.underlying_typedef_type.kind = TypeKind.POINTER then
          pointer_type (define_type f) node
        else typedef_decl node
      else if node.kind = CursorKind.PARM_DECL then
        if node.type.kind = TypeKind.TYPEDEF then typedef_decl node
        else pure none
      else if node.kind = CursorKind.VAR_DECL then var_decl node
      else if node.kind = CursorKind.FUNCTION_DECL then
        function_decl (define_type f) node
      else if node.kind = CursorKind.ENUM_DECL then enum_decl node
      else if node.kind = CursorKind.STRUCT_DECL then
        struct_decl (define_type f) node
      else if node.kind = CursorKind.FIELD_DECL then
        field_decl (define_type f) node
      else if node.kind = CursorKind.UNION_DECL then
        struct_decl (define_type f) node
      else pure none

/-- The resolution loop of `pre_process.pp` (pre_process.py:31): dispatch
`define_type` over the top-level declarations in order, discarding results.
No exception handling surrounds the loop in the source, so a raise aborts
it. -/
def pp_traversal (fuel : Nat) : List Cursor → M Unit
  | [] => M.pure ()
  | node :: rest => do
      let _ ← define_type fuel node
      pp_traversal fuel rest

/-! Concrete AST values used to instantiate the claims.  They are the shapes
libclang produces for the quoted C declarations. -/

/-- A libclang type with only kind and spelling (a primitive, or an
unresolved record). -/
def plainCType (k : TypeKind) (sp : String) : CType :=
  CType.mk k sp none none none 0 none [] false 0 0 [] none

/-- A pointer type node. -/
def ptrCType (sp : String) (pointee : CType) : CType :=
  CType.mk TypeKind.POINTER sp (some pointee) none none 0 none [] false 0 0 [] none

/-- A constant-size array type node. -/
def arrCType (sp : String) (elem : CType) (n : Nat) : CType :=
  CType.mk TypeKind.CONSTANTARRAY sp none none (some elem) n none [] false 0 0 [] none

/-- An incomplete array type node. -/
def incArrCType (sp : String) (elem : CType) : CType :=
  CType.mk TypeKind.INCOMPLETEARRAY sp none none (some elem) 0 none [] false 0 0 [] none

/-- The libclang type of `int`. -/
def ctInt : CType := plainCType TypeKind.INT "int"

/-- A plain declaration cursor (no children, arguments or tokens). -/
def plainCursor (k : CursorKind) (sp : String) (ty : CType) : Cursor :=
  Cursor.mk k sp ty none false false "" [] [] 0 []

/-- Models `struct A { struct A *next; };` — the self-referential struct of claim C1.
The pointee's declaration backlink is the (separately materialized) cursor of
`A`, of which only the spelling is ever read. -/
def c1_fwdA : Cursor := plainCursor CursorKind.STRUCT_DECL "A" CType.invalid

def c1_ctArec : CType :=
  CType.mk TypeKind.RECORD "struct A" none (some c1_fwdA) none 0 none [] false 8 8 [] none

def c1_ctPA : CType := ptrCType "struct A *" c1_ctArec

/-- The `next` field: pointer to `struct A`, semantic parent `struct A`. -/
def c1_next : Cursor :=
  Cursor.mk CursorKind.FIELD_DECL "next" c1_ctPA none false true "struct A" [] [] 0 []

def c1_ctA : CType :=
  CType.mk TypeKind.RECORD "struct A" none none none 0 none [] false 8 8 [c1_next] none

def c1_node : Cursor :=
  Cursor.mk CursorKind.STRUCT_DECL "A" c1_ctA none false true "" [] [] 0 []

/-- The populated `A` the source builds: one member, the bare empty
placeholder (not a pointer), recorded under the struct's own name. -/
def c1_final : BnType := BnType.structT 8 8 [(empty_structure, "A")] false

/-- Models `struct A {};` (an empty definition) with `A` already present in the
registry — the memoization counterexample of claim C2. -/
def c2_ctA : CType :=
  CType.mk TypeKind.RECORD "struct A" none none none 0 none [] false 4 4 [] none

def c2_node : Cursor :=
  Cursor.mk CursorKind.STRUCT_DECL "A" c2_ctA none false true "" [] [] 0 []

def c2_reg0 : Reg := [("A", empty_structure)]

/-- A typedef-shaped node whose cursor and type spellings coincide, for the
memoization-hit witness. -/
def c2_hit_node : Cursor :=
  plainCursor CursorKind.TYPEDEF_DECL "FOO" (plainCType TypeKind.TYPEDEF "FOO")

/-- Models `int xs[];` — an incomplete array of a base element type. -/
def c3_node : Cursor :=
  plainCursor CursorKind.VAR_DECL "xs" (incArrCType "int []" ctInt)

/-- An `int x;` field cursor. -/
def cfield_x : Cursor :=
  Cursor.mk CursorKind.FIELD_DECL "x" ctInt none false true "" [] [] 0 []

/-- An anonymous `struct { int x; }` declaration. -/
def c3_anon : Cursor :=
  Cursor.mk CursorKind.STRUCT_DECL ""
    (CType.mk TypeKind.RECORD "struct (unnamed)" none none none 0 none [] false 4 4
      [cfield_x] none)
    none true true "" [] [] 0 []

/-- Models `int ****a;` — the four-level pointer chain of claim C4. -/
def c4_ctP1 : CType := ptrCType "int *" ctInt

def c4_ctP2 : CType := ptrCType "int **" c4_ctP1

def c4_ctP3 : CType := ptrCType "int ***" c4_ctP2

def c4_ctP4 : CType := ptrCType "int ****" c4_ctP3

def c4_node : Cursor := plainCursor CursorKind.VAR_DECL "a" c4_ctP4

/-- Models `struct Q q[];` where `struct Q`'s declaration cursor has a kind the
dispatcher does not handle — the raising input of claim C5. -/
def c5_badDecl : Cursor := plainCursor CursorKind.OTHERKIND "" CType.invalid

def c5_ctBadElem : CType :=
  CType.mk TypeKind.RECORD "struct Q" none (some c5_badDecl) none 0 none [] false 0 0 [] none

def c5_bad : Cursor :=
  plainCursor CursorKind.VAR_DECL "q" (incArrCType "struct Q []" c5_ctBadElem)

/-- The base kinds paired with their canonical spellings, covering the
primitive elements the amended claim C5 ranges over. -/
def c5_base_pairs : List (TypeKind × String) :=
  [(TypeKind.VOID, "void"), (TypeKind.BOOL, "bool"), (TypeKind.CHAR_S, "char"),
   (TypeKind.SHORT, "short"), (TypeKind.INT, "int"), (TypeKind.LONG, "long"),
   (TypeKind.FLOAT, "float"), (TypeKind.DOUBLE, "double")]

/-- Models `int m3[2][3][4];` — the three-dimensional array of claim C6. -/
def c6_ctArr4 : CType := arrCType "int [4]" ctInt 4

def c6_ctArr34 : CType := arrCType "int [3][4]" c6_ctArr4 3

def c6_ctArr234 : CType := arrCType "int [2][3][4]" c6_ctArr34 2

def c6_node : Cursor := plainCursor CursorKind.VAR_DECL "m3" c6_ctArr234

/-- Models `int m[2][3];` — the two-dimensional case the source does handle. -/
def c6_2d_node : Cursor :=
  plainCursor CursorKind.VAR_DECL "m" (arrCType "int [2][3]" (arrCType "int [3]" ctInt 3) 2)

/-- Models `UNKNOWN x;` — a variable of an undefined type; its resolution raises a
parse `SyntaxError`. -/
def c7_bad : Cursor := plainCursor CursorKind.VAR_DECL "x" (plainCType TypeKind.RECORD "UNKNOWN")

/-- Models `int y;` — a sibling that resolves fine. -/
def c7_good : Cursor := plainCursor CursorKind.VAR_DECL "y" ctInt

/-- Models `typedef BAD size_t;` — reserved-suffix name with an unparseable
underlying type. -/
def c8_t : Cursor :=
  Cursor.mk CursorKind.TYPEDEF_DECL "size_t" (plainCType TypeKind.TYPEDEF "size_t")
    (some (plainCType TypeKind.RECORD "BAD")) false false "" [] [] 0 []

/-- Models `typedef BAD foo;` — the undefined-identifier recovery input. -/
def c8_f : Cursor :=
  Cursor.mk CursorKind.TYPEDEF_DECL "foo" (plainCType TypeKind.TYPEDEF "foo")
    (some (plainCType TypeKind.RECORD "BAD")) false false "" [] [] 0 []

/-- A typedef whose underlying spelling is malformed in a way that is neither
a rename candidate nor an undefined identifier. -/
def c8_o : Cursor :=
  Cursor.mk CursorKind.TYPEDEF_DECL "foo2" (plainCType TypeKind.TYPEDEF "foo2")
    (some (plainCType TypeKind.RECORD "a b c")) false false "" [] [] 0 []

/-- An anonymous aggregate declaration with the given type spelling and no
fields, as `define_anonymous_type` receives it. -/
def mkAnonNode (s : String) : Cursor :=
  Cursor.mk CursorKind.STRUCT_DECL "" (plainCType TypeKind.RECORD s)
    none true true "" [] [] 0 []

/-- The synthesized anonymous name (ast_handlers.py:594). -/
def anon_name_of (s : String) : String := "anon_" ++ xxh64_hexdigest s

/-- A family of pairwise distinct spellings (used to exhibit a hash
collision by counting). -/
def repStr (n : Nat) : String := String.mk (List.replicate n 'a')

/-- The name component of a handler run's outcome. -/
def result_name (r : Except PyErr (String × BnType) × Reg) : String :=
  match r.1 with
  | Except.ok p => p.1
  | Except.error _ => ""

/-- An enum whose own spelling is empty but whose type spelling names it —
the shape of claim C10. -/
def c10_m1 : Cursor :=
  Cursor.mk CursorKind.ENUM_CONSTANT_DECL "RED" CType.invalid none false false "" [] [] 0 []

def c10_m2 : Cursor :=
  Cursor.mk CursorKind.ENUM_CONSTANT_DECL "GREEN" CType.invalid none false false "" [] [] 1 []

def c10_node : Cursor :=
  Cursor.mk CursorKind.ENUM_DECL "" (plainCType TypeKind.ENUM "COLOR")
    none false true "" [c10_m1, c10_m2] [] 0 []

/-! Helper lemmas about the monad and the registry. -/

@[simp] theorem M_bind_apply {α β : Type} (m : M α) (f : α → M β) (reg : Reg) :
    (m >>= f) reg =
      match m reg with
      | (Except.ok a, reg1) => f a reg1
      | (Except.error e, reg1) => (Except.error e, reg1) := rfl

@[simp] theorem M_pure_apply {α : Type} (a : α) (reg : Reg) :
    (pure a : M α) reg = (Except.ok a, reg) := rfl

@[simp] theorem M_pure'_apply {α : Type} (a : α) (reg : Reg) :
    (M.pure a : M α) reg = (Except.ok a, reg) := rfl

@[simp] theorem M_throw_apply {α : Type} (e : PyErr) (reg : Reg) :
    (M.throw e : M α) reg = (Except.error e, reg) := rfl

@[simp] theorem define_user_type_apply (n : String) (t : BnType) (reg : Reg) :
    define_user_type n t reg = (Except.ok (), (n, t) :: reg) := rfl

@[simp] theorem get_type_by_name_apply (n : String) (reg : Reg) :
    get_type_by_name n reg = (Except.ok (regLookup reg n), reg) := rfl

@[simp] theorem regLookup_cons (n m : String) (t : BnType) (rest : Reg) :
    regLookup ((n, t) :: rest) m = if n = m then some t else regLookup rest m := rfl

/-- Sequencing after a registration just runs the continuation on the grown
registry. -/
theorem M_bind_define_user_type_apply {β : Type} (n : String) (t : BnType)
    (k : Unit → M β) (reg : Reg) :
    (define_user_type n t >>= k) reg = k () ((n, t) :: reg) := rfl

/-- Any computation of the shape `resolve a value, register it under a name,
return the pair` leaves the returned pair registered: the common tail of
`constantarray_type`, `pointer_type` and `struct_decl`. -/
theorem register_tail_lookup {α : Type} (m : M α) (g : α → BnType) (nm : String)
    (reg reg' : Reg) (nm' : String) (t : BnType)
    (h : M.bind m (fun v => M.bind (define_user_type nm (g v))
        (fun _ => M.pure (some (nm, g v)))) reg = (Except.ok (some (nm', t)), reg')) :
    regLookup reg' nm' = some t := by
  rcases hm : m reg with ⟨res, reg1⟩
  unfold M.bind at h
  rw [hm] at h
  cases res with
  | error e => simp at h
  | ok v =>
      simp only [define_user_type_apply, M_pure'_apply, Prod.mk.injEq,
        Except.ok.injEq, Option.some.injEq] at h
      obtain ⟨⟨hnm, hgv⟩, hreg⟩ := h
      subst hnm
      subst hgv
      subst hreg
      simp

/-! Claim theorems. -/

/-- Claim C1: on `struct A { struct A *next; }`, `struct_decl` terminates
without re-entering type resolution — the run is identical for every dispatch
callback, including one that always raises — and the type registered under
`A` ends up with one member.  That member, however, is the bare empty
placeholder `structT 0 1 [] false` recorded under the name `A`: the source
never wraps it in a pointer (and names the member after the struct, not the
field), diverging from the claimed pointer-to-placeholder member. -/
theorem c1_struct_recursive_field_eval (dt : DT) :
    struct_decl dt c1_node [] =
      (Except.ok (some ("A", c1_final)),
       [("A", c1_final), ("A", empty_structure), ("A", empty_structure)]) := rfl

/-- Witness for C1: instantiating the dispatch callback with the
always-raising `define_type 0` gives the same run, so no re-entry occurs. -/
theorem c1_struct_recursive_field_eval_witness :
    struct_decl (define_type 0) c1_node [] =
      (Except.ok (some ("A", c1_final)),
       [("A", c1_final), ("A", empty_structure), ("A", empty_structure)]) :=
  c1_struct_recursive_field_eval (define_type 0)

/-- Claim C4: on `int ****a;` (four pointer levels) `pointer_type` produces
six nested pointer wrappers around the primitive base, not four: the source
rebuilds the counted chain and then wraps twice more (ast_handlers.py:169 and
ast_handlers.py:181). -/
theorem c4_pointer_chain_eval :
    pointer_type (define_type 3) c4_node [] =
      (Except.ok (some ("a",
        BnType.ptr (BnType.ptr (BnType.ptr (BnType.ptr (BnType.ptr
          (BnType.ptr (BnType.prim "int")))))))),
       [("a", BnType.ptr (BnType.ptr (BnType.ptr (BnType.ptr (BnType.ptr
          (BnType.ptr (BnType.prim "int")))))))]) := rfl

/-- Claim C6: `constantarray_type` is not dimension-generic.  On
`int m3[2][3][4]` the inner array element `int [3][4]` is again an array, its
element `int [4]` is not a base type, and its missing declaration makes the
dispatched `define_type` return `None`, so the handler raises `TypeError`
(ast_handlers.py:263,270) — while the two-dimensional `int m[2][3]` does
produce the nested sizes-preserving array. -/
theorem c6_constantarray_eval :
    constantarray_type (define_type 3) c6_node [] = (Except.error PyErr.typeError, []) ∧
    constantarray_type (define_type 3) c6_2d_node [] =
      (Except.ok (some ("m", BnType.array (BnType.array (BnType.prim "int") 3) 2)),
       [("m", BnType.array (BnType.array (BnType.prim "int") 3) 2)]) :=
  ⟨rfl, rfl⟩

/-- Claim C8: the three parse-failure paths of `typedef_decl`.  A reserved
`_t` name is rewritten to `_T` and retried exactly once, the retry's own
failure propagating (the raised message shows the retried text); an
`is not defined` failure on a non-`_t` name raises `TypeError`, because the
source calls `bv.define_user_type` with a single argument and unpacks its
result (ast_handlers.py:347) instead of force-defining the type; any other
parse failure yields `Absent`. -/
theorem c8_typedef_failure_paths_eval :
    typedef_decl c8_t [] =
      (Except.error (PyErr.parseError true "BAD  size_T"), []) ∧
    typedef_decl c8_f [] = (Except.error PyErr.typeError, []) ∧
    typedef_decl c8_o [] = (Except.ok none, []) :=
  ⟨rfl, rfl, rfl⟩

/-- Counterexample to claim C3: `incompletearray_type` returns a
`(Name, ResolvedType)` pair while leaving the registry untouched — on
`int xs[];` with an empty registry the pair is returned but nothing is
registered under `xs`. -/
theorem c3_counterexample_unregistered_return :
    (incompletearray_type (define_type 3) c3_node []).1 =
      Except.ok ("xs", BnType.array (BnType.prim "int") INCOMPLETE_ARRAY_ARBITRARY_SIZE) ∧
    regLookup (incompletearray_type (define_type 3) c3_node []).2 "xs" = none :=
  ⟨rfl, rfl⟩

/-- Counterexample to claim C5: the substitution is not exception-free for
every unbounded-array input — on `struct Q q[];` whose element declaration has
an unhandled kind, `define_type` returns `None` and the unpacking raises
`TypeError` out of `incompletearray_type`. -/
theorem c5_counterexample_raises :
    incompletearray_type (define_type 3) c5_bad [] = (Except.error PyErr.typeError, []) :=
  rfl

/-- Counterexample to claim C7: the traversal is not exception-isolating.
With `UNKNOWN x;` followed by `int y;`, the parse failure of the first node
propagates out of the traversal loop and the second sibling is never
resolved (the final registry is empty — `y` was not registered). -/
theorem c7_counterexample_traversal_aborts :
    pp_traversal 3 [c7_bad, c7_good] [] =
      (Except.error (PyErr.parseError true "UNKNOWN x"), []) ∧
    regLookup (pp_traversal 3 [c7_bad, c7_good] []).2 "y" = none :=
  ⟨rfl, rfl⟩

/-- Counterexample to claim C2: the memoization lookup is keyed by the
node's *type spelling*, not its name.  For `struct A {};` (spelling `A`, type
spelling `struct A`) with `A` already registered, `define_type` does not
return the existing entry: it re-resolves, registers a new type under `A`,
and the registry entry under the already-present name changes. -/
theorem c2_counterexample_lookup_key :
    (define_type 3 c2_node c2_reg0).1 =
      Except.ok (some ("A", BnType.structT 4 4 [] false)) ∧
    regLookup (define_type 3 c2_node c2_reg0).2 "A" =
      some (BnType.structT 4 4 [] false) ∧
    regLookup c2_reg0 "A" = some empty_structure ∧
    BnType.structT 4 4 [] false ≠ empty_structure := by
  refine ⟨rfl, rfl, rfl, ?_⟩
  intro h
  simp [empty_structure] at h

/-- Amended claim C2: for every node with a non-empty spelling whose *type
spelling* is registered, `define_type` returns the registered entry paired
with the node's spelling and leaves the registry untouched, so resolving the
node again finds the identical entry. -/
theorem c2_amended_memoized_lookup (fuel : Nat) (node : Cursor) (reg : Reg)
    (t : BnType) (h1 : node.spelling ≠ "")
    (h2 : regLookup reg node.type.spelling = some t) :
    define_type (fuel + 1) node reg = (Except.ok (some (node.spelling, t)), reg) ∧
    regLookup (define_type (fuel + 1) node reg).2 node.type.spelling = some t := by
  have hmain : define_type (fuel + 1) node reg =
      (Except.ok (some (node.spelling, t)), reg) := by
    simp only [define_type]
    rw [if_pos h1, M_bind_apply, get_type_by_name_apply, h2]
    rfl
  exact ⟨hmain, by rw [hmain]; exact h2⟩

/-- Witness for the amended C2 at a typedef node `FOO` with `FOO`
registered. -/
theorem c2_amended_memoized_lookup_witness :
    define_type 1 c2_hit_node [("FOO", BnType.prim "int")] =
      (Except.ok (some ("FOO", BnType.prim "int")), [("FOO", BnType.prim "int")]) ∧
    regLookup (define_type 1 c2_hit_node [("FOO", BnType.prim "int")]).2 "FOO" =
      some (BnType.prim "int") := by
  have h := c2_amended_memoized_lookup 0 c2_hit_node [("FOO", BnType.prim "int")]
    (BnType.prim "int") (by decide) rfl
  exact ⟨h.1, h.2⟩

/-- Amended claim C3: the registering handlers (`constantarray_type`,
`pointer_type`, `struct_decl`) have registered the returned type under the
returned name before returning, but `incompletearray_type` and
`define_anonymous_type` return their `(Name, ResolvedType)` pair *without*
registering it — both runs below leave the registry exactly as found. -/
theorem c3_amended_registration_policy :
    (∀ (dt : DT) (node : Cursor) (reg : Reg) (nm : String) (t : BnType) (reg' : Reg),
        constantarray_type dt node reg = (Except.ok (some (nm, t)), reg') →
        regLookup reg' nm = some t) ∧
    (∀ (dt : DT) (node : Cursor) (reg : Reg) (nm : String) (t : BnType) (reg' : Reg),
        pointer_type dt node reg = (Except.ok (some (nm, t)), reg') →
        regLookup reg' nm = some t) ∧
    (∀ (dt : DT) (node : Cursor) (reg : Reg) (nm : String) (t : BnType) (reg' : Reg),
        struct_decl dt node reg = (Except.ok (some (nm, t)), reg') →
        regLookup reg' nm = some t) ∧
    incompletearray_type (define_type 3) c3_node [] =
      (Except.ok ("xs", BnType.array (BnType.prim "int") INCOMPLETE_ARRAY_ARBITRARY_SIZE),
       []) ∧
    define_anonymous_type (define_type 3) c3_anon [] =
      (Except.ok (anon_name_of "struct (unnamed)",
        BnType.structT 4 4 [(BnType.prim "int", "x")] false), []) := by
  refine ⟨?_, ?_, ?_, rfl, rfl⟩
  · intro dt node reg nm t reg' h
    exact register_tail_lookup (constantarray_build dt node) (fun v => v)
      node.spelling reg reg' nm t h
  · intro dt node reg nm t reg' h
    unfold pointer_type at h
    split at h
    · simp only [M_pure'_apply] at h
      simp at h
    · exact register_tail_lookup
        (pointer_build dt node
          (if node.type.kind = TypeKind.TYPEDEF then
            node.underlying_typedef_type.get_pointee
          else node.type.get_pointee))
        (fun v => v) node.spelling reg reg' nm t h
  · intro dt node reg nm t reg' h
    simp only [struct_decl, M_bind_define_user_type_apply] at h
    split at h
    · exact register_tail_lookup _ _ _ _ _ _ _ h
    · exact register_tail_lookup _ _ _ _ _ _ _ h

/-- Witness for the amended C3: the three registration conjuncts applied at
concrete runs. -/
theorem c3_amended_registration_policy_witness :
    regLookup [("m", BnType.array (BnType.array (BnType.prim "int") 3) 2)] "m" =
      some (BnType.array (BnType.array (BnType.prim "int") 3) 2) ∧
    regLookup [("a", BnType.ptr (BnType.ptr (BnType.ptr (BnType.ptr (BnType.ptr
        (BnType.ptr (BnType.prim "int")))))))] "a" =
      some (BnType.ptr (BnType.ptr (BnType.ptr (BnType.ptr (BnType.ptr
        (BnType.ptr (BnType.prim "int"))))))) ∧
    regLookup [("A", BnType.structT 4 4 [] false), ("A", empty_structure),
        ("A", empty_structure)] "A" = some (BnType.structT 4 4 [] false) := by
  refine ⟨?_, ?_, ?_⟩
  · exact c3_amended_registration_policy.1 (define_type 3) c6_2d_node [] "m"
      (BnType.array (BnType.array (BnType.prim "int") 3) 2)
      [("m", BnType.array (BnType.array (BnType.prim "int") 3) 2)] rfl
  · exact c3_amended_registration_policy.2.1 (define_type 3) c4_node [] "a"
      (BnType.ptr (BnType.ptr (BnType.ptr (BnType.ptr (BnType.ptr
        (BnType.ptr (BnType.prim "int")))))))
      [("a", BnType.ptr (BnType.ptr (BnType.ptr (BnType.ptr (BnType.ptr
        (BnType.ptr (BnType.prim "int")))))))] rfl
  · exact c3_amended_registration_policy.2.2.1 (define_type 3) c2_node c2_reg0 "A"
      (BnType.structT 4 4 [] false)
      [("A", BnType.structT 4 4 [] false), ("A", empty_structure),
       ("A", empty_structure)] rfl

/-- Amended claim C5: for an unbounded array whose element is a primitive
base type, `incompletearray_type` returns the element wrapped in an array of
exactly the placeholder capacity `0x1000` without raising and without
touching the registry; the never-raises part of the original claim fails for
elements whose resolution fails (see the counterexample). -/
theorem c5_amended_substitution (dt : DT) (reg : Reg) (name : String)
    (p : TypeKind × String) (hp : p ∈ c5_base_pairs) :
    incompletearray_type dt
      (plainCursor CursorKind.VAR_DECL name
        (incArrCType (p.2 ++ " []") (plainCType p.1 p.2))) reg =
      (Except.ok (name, BnType.array (BnType.prim p.2) INCOMPLETE_ARRAY_ARBITRARY_SIZE),
       reg) := by
  simp only [c5_base_pairs, List.mem_cons, List.not_mem_nil, or_false] at hp
  rcases hp with rfl | rfl | rfl | rfl | rfl | rfl | rfl | rfl <;> rfl

/-- Witness for the amended C5 at `int zs[];`. -/
theorem c5_amended_substitution_witness :
    incompletearray_type (define_type 0)
      (plainCursor CursorKind.VAR_DECL "zs"
        (incArrCType ("int" ++ " []") (plainCType TypeKind.INT "int"))) [] =
      (Except.ok ("zs", BnType.array (BnType.prim "int") INCOMPLETE_ARRAY_ARBITRARY_SIZE),
       []) :=
  c5_amended_substitution (define_type 0) [] "zs" (TypeKind.INT, "int") (by decide)

/-- Amended claim C7: a node whose resolution returns normally (even with an
`Absent` result) leaves the traversal to continue with the remaining
siblings from the updated registry, but an exception raised while resolving a
node propagates out of the traversal and aborts the remaining siblings. -/
theorem c7_amended_isolation :
    (∀ (fuel : Nat) (node : Cursor) (rest : List Cursor) (reg reg1 : Reg)
        (r : Option (String × BnType)),
        define_type fuel node reg = (Except.ok r, reg1) →
        pp_traversal fuel (node :: rest) reg = pp_traversal fuel rest reg1) ∧
    (∀ (fuel : Nat) (node : Cursor) (rest : List Cursor) (reg reg1 : Reg)
        (e : PyErr),
        define_type fuel node reg = (Except.error e, reg1) →
        pp_traversal fuel (node :: rest) reg = (Except.error e, reg1)) := by
  constructor
  · intro fuel node rest reg reg1 r h
    show (define_type fuel node >>= fun _ => pp_traversal fuel rest) reg = _
    rw [M_bind_apply, h]
  · intro fuel node rest reg reg1 e h
    show (define_type fuel node >>= fun _ => pp_traversal fuel rest) reg = _
    rw [M_bind_apply, h]

/-- The modelled hash has the 64-bit output range of the real `xxh64`. -/
theorem xxh64_lt (s : String) : xxh64 s < 2 ^ 64 :=
  Nat.mod_lt _ (by norm_num)

/-- The replicate family of spellings is injective. -/
theorem repStr_injective {m n : Nat} (h : repStr m = repStr n) : m = n := by
  have h2 : List.replicate m 'a' = List.replicate n 'a' := congrArg String.data h
  exact List.replicate_left_inj.mp h2

/-- String append cancels on the left. -/
theorem string_append_left_cancel {a b c : String} (h : a ++ b = a ++ c) : b = c := by
  cases a with | mk ad =>
  cases b with | mk bd =>
  cases c with | mk cd =>
  have hd : ad ++ bd = ad ++ cd := congrArg String.data h
  exact congrArg String.mk (List.append_cancel_left hd)

/-- Running `define_anonymous_type` on a fieldless anonymous node with type
spelling `s` names the result `anon_` plus the hash digest of `s`. -/
theorem anon_run_name (s : String) :
    result_name (define_anonymous_type (define_type 1) (mkAnonNode s) []) =
      anon_name_of s := rfl

/-- Counterexample to claim C9: distinct type spellings do not always give
distinct synthesized names.  The hash digest ranges over at most `2 ^ 64`
values, so among `2 ^ 64 + 1` pairwise distinct spellings two must share a
digest, and the two anonymous nodes built from them receive the same name. -/
theorem c9_counterexample_hash_collision :
    ¬ (∀ s t : String, s ≠ t →
        result_name (define_anonymous_type (define_type 1) (mkAnonNode s) []) ≠
        result_name (define_anonymous_type (define_type 1) (mkAnonNode t) [])) := by
  intro H
  obtain ⟨i, j, hij, hfeq⟩ :=
    Fintype.exists_ne_map_eq_of_card_lt
      (fun i : Fin (2 ^ 64 + 1) => (⟨xxh64 (repStr i.val), xxh64_lt _⟩ : Fin (2 ^ 64)))
      (by rw [Fintype.card_fin, Fintype.card_fin]; exact Nat.lt_succ_self _)
  have hhash : xxh64 (repStr i.val) = xxh64 (repStr j.val) := congrArg Fin.val hfeq
  have hs : repStr i.val ≠ repStr j.val :=
    fun he => hij (Fin.ext (repStr_injective he))
  exact H (repStr i.val) (repStr j.val) hs
    (by
      rw [anon_run_name, anon_run_name]
      show "anon_" ++ xxh64_hexdigest (repStr i.val) =
        "anon_" ++ xxh64_hexdigest (repStr j.val)
      unfold xxh64_hexdigest
      rw [hhash])

/-- Amended claim C9: every successful `define_anonymous_type` run names its
result `anon_` plus the hash digest of the node's type spelling; identical
spellings therefore receive identical names, and spellings whose 64-bit hash
digests differ receive different names (distinctness is only
digest-conditional: the hash's finite range admits collisions). -/
theorem c9_amended_anonymous_naming :
    (∀ (dt : DT) (node : Cursor) (reg reg' : Reg) (p : String × BnType),
        define_anonymous_type dt node reg = (Except.ok p, reg') →
        p.1 = anon_name_of node.type.spelling) ∧
    (∀ s1 s2 : String, s1 = s2 → anon_name_of s1 = anon_name_of s2) ∧
    (∀ s1 s2 : String, xxh64_hexdigest s1 ≠ xxh64_hexdigest s2 →
        anon_name_of s1 ≠ anon_name_of s2) := by
  refine ⟨?_, ?_, ?_⟩
  · intro dt node reg reg' p h
    have h' : M.bind (define_anonymous_fields dt node.type.get_fields)
        (fun members => M.pure ("anon_" ++ xxh64_hexdigest node.type.spelling,
          BnType.structT node.type.get_size node.type.get_align members
            (decide (node.type.kind = TypeKind.ELABORATED ∧
              node.type.get_named_type.get_declaration.kind = CursorKind.UNION_DECL))))
        reg = (Except.ok p, reg') := h
    rcases hm : define_anonymous_fields dt node.type.get_fields reg with ⟨res, reg1⟩
    unfold M.bind at h'
    rw [hm] at h'
    cases res with
    | error e => simp at h'
    | ok v =>
        simp only [M_pure'_apply, Prod.mk.injEq, Except.ok.injEq] at h'
        obtain ⟨hp, _⟩ := h'
        rw [← hp]
        rfl
  · intro s1 s2 h
    rw [h]
  · intro s1 s2 h hne
    exact h (string_append_left_cancel hne)

/-- Witness for the amended C9: a concrete anonymous run is named by the
digest of its spelling, and two spellings with distinct digests get distinct
names. -/
theorem c9_amended_anonymous_naming_witness :
    anon_name_of "s1" = anon_name_of ((mkAnonNode "s1").type.spelling) ∧
    anon_name_of "ab" ≠ anon_name_of "ba" := by
  constructor
  · exact c9_amended_anonymous_naming.1 (define_type 1) (mkAnonNode "s1") [] []
      (anon_name_of "s1", BnType.structT 0 0 [] false) rfl
  · exact c9_amended_anonymous_naming.2.2 "ab" "ba" (by decide)

/-- Claim C10: for an enum declaration whose own spelling is empty,
`enum_decl` registers the enumeration under the node's *type* spelling but
returns the empty own spelling as the name component, so the returned name
differs from the registered one. -/
theorem c10_enum_unnamed_registration (node : Cursor) (reg : Reg)
    (h1 : node.spelling = "") (h2 : node.type.spelling ≠ "") :
    enum_decl node reg =
      (Except.ok (some ("",
        BnType.enumT (node.get_children.map fun m => (m.spelling, m.enum_value)))),
       (node.type.spelling,
        BnType.enumT (node.get_children.map fun m => (m.spelling, m.enum_value))) :: reg) ∧
    ("" : String) ≠ node.type.spelling := by
  refine ⟨?_, fun he => h2 he.symm⟩
  simp only [enum_decl, h1]
  rw [if_neg (by simp)]
  rfl

/-- Witness for C10 at the unnamed `COLOR` enum. -/
theorem c10_enum_unnamed_registration_witness :
    enum_decl c10_node [] =
      (Except.ok (some ("", BnType.enumT [("RED", 0), ("GREEN", 1)])),
       [("COLOR", BnType.enumT [("RED", 0), ("GREEN", 1)])]) ∧
    ("" : String) ≠ "COLOR" := by
  have h := c10_enum_unnamed_registration c10_node [] rfl (by decide)
  exact ⟨h.1, h.2⟩

/-- Witness for the amended C7: `int y;` resolves and the loop continues;
`UNKNOWN x;` raises and the loop stops with the exception. -/
theorem c7_amended_isolation_witness :
    pp_traversal 3 [c7_good] [] = pp_traversal 3 [] [] ∧
    pp_traversal 3 [c7_bad] [] =
      (Except.error (PyErr.parseError true "UNKNOWN x"), []) := by
  constructor
  · exact c7_amended_isolation.1 3 c7_good [] [] []
      (some ("y", BnType.prim "int")) rfl
  · exact c7_amended_isolation.2 3 c7_bad [] [] []
      (PyErr.parseError true "UNKNOWN x") rfl

end Binja
